import Mathlib

/-!
Verification development for the am-event-handler repository.

The definitions below are a shallow embedding of the repository's Go code:

* `Tokenize` with its helpers `chunk`, `step` and `finish` embeds the
  three-state scanner in `argv.go` (states 0 = no quote, 1 = backslash,
  2 = in quote), processing the input rune by rune.
* `isSpace` embeds Go's `unicode.IsSpace` (the `White_Space` table).
* The dispatch pipeline (`formatHandler`, `executeHandler`, `parseHandler`,
  `runInvocation`, `handleAlert`, `handleEvent`, `amWebHook`) embeds the
  current `main.go`.  External effects (template rendering, JSON
  marshalling/unmarshalling, process execution) are abstracted as oracle
  functions carried in an `Env` record; everything decided by the
  repository's own control flow is embedded directly.
* `GoPartial` is the result type of Go functions that may end in a runtime
  crash (index out of range); the `crash` constructor marks those points.
-/

set_option maxRecDepth 10000

/-- Embeds Go's `unicode.IsSpace`: the Unicode `White_Space` property used by
both `Tokenize` (argv.go) and `strings.Fields`. -/
def isSpace (c : Char) : Bool :=
  c.toNat = 9 || c.toNat = 10 || c.toNat = 11 || c.toNat = 12 || c.toNat = 13 ||
  c.toNat = 32 || c.toNat = 0x85 || c.toNat = 0xA0 || c.toNat = 0x1680 ||
  (decide (0x2000 ≤ c.toNat) && decide (c.toNat ≤ 0x200A)) ||
  c.toNat = 0x2028 || c.toNat = 0x2029 || c.toNat = 0x202F ||
  c.toNat = 0x205F || c.toNat = 0x3000

/-- The single quote character, written via its code point. -/
def squote : Char := Char.ofNat 39

/-- State of the scanner in `Tokenize` (argv.go): the accumulated tokens
(`result`), the pending token buffer (`token`), the state integer
(0 = no quote, 1 = backslash, 2 = in quote) and the active quote character
(`'\x00'` when none). -/
structure TokState where
  result : List String := []
  token : List Char := []
  state : Nat := 0
  quote : Char := '\x00'
  deriving DecidableEq

/-- Initial scanner state: no tokens, empty buffer, state 0, no quote. -/
def initState : TokState := {}

/-- Embeds the local closure `chunk` in `Tokenize`: append the pending token
to the result when it is non-empty, then clear the buffer. -/
def chunk (st : TokState) : TokState :=
  if st.token.length > 0 then
    { st with result := st.result ++ [String.mk st.token], token := [] }
  else st

/-- One iteration of the rune loop in `Tokenize` (argv.go lines 31-74). -/
def step (st : TokState) (c : Char) : TokState :=
  match st.state with
  | 0 =>
    if isSpace c then chunk st
    else if c = '\\' then { st with state := 1 }
    else if c = squote ∨ c = '"' then { st with state := 2, quote := c }
    else { st with token := st.token ++ [c] }
  | 1 =>
    if isSpace c ∨ c = squote ∨ c = '"' then
      if st.quote = '\x00' then { st with token := st.token ++ [c], state := 0 }
      else { st with token := st.token ++ [c], state := 2 }
    else
      if st.quote = '\x00' then { st with token := st.token ++ ['\\', c], state := 0 }
      else { st with token := st.token ++ ['\\', c], state := 2 }
  | _ =>
    if c = '\\' then { st with state := 1 }
    else if c = st.quote then { chunk st with quote := '\x00', state := 0 }
    else { st with token := st.token ++ [c] }

/-- End-of-string handling of `Tokenize` (argv.go lines 76-85): in state 1 a
literal backslash is appended before the final flush; state 2 is the missing
closing quote error; otherwise the pending token is flushed. -/
def finish (st : TokState) : Except String (List String) :=
  match st.state with
  | 1 => Except.ok (chunk { st with token := st.token ++ ['\\'] }).result
  | 2 => Except.error "Missing closing quote"
  | _ => Except.ok (chunk st).result

/-- Embeds `Tokenize` (argv.go): run the three-state scanner over the string
and apply the end-of-string handling. -/
def Tokenize (s : String) : Except String (List String) :=
  finish (s.data.foldl step initState)

/-- Result of a Go function that may end in a runtime crash: `ok` is a normal
return, `crash` marks an unrecovered runtime error such as an index out of
range. -/
inductive GoPartial (A : Type) where
  | crash : GoPartial A
  | ok : A → GoPartial A
  deriving DecidableEq

/-- The `EMISSING` error code from main.go. -/
def EMISSING : Nat := 0

/-- Go error values produced by the dispatch pipeline: `eventError` embeds the
`EventError` struct (code and object), `errorf` embeds any other error value
by its message text. -/
inductive GoError where
  | eventError (code : Nat) (object : String)
  | errorf (msg : String)
  deriving DecidableEq

/-- Embeds `EventError.Error()` (for `eventError`) and `Error()` of plain
errors (for `errorf`): the text written into the aggregated response. -/
def GoError.message : GoError → String
  | .eventError code obj =>
    if code = EMISSING then
      "Handler " ++ obj ++ " is not defined or missing from configration"
    else "Undefined event error"
  | .errorf m => m

/-- Embeds the type assertion `err.(EventError)` plus the `e.code == EMISSING`
check in `handleEvent`. -/
def isMissingErr : GoError → Bool
  | .eventError code _ => code = EMISSING
  | .errorf _ => false

/-- Behaviour of the external process started by `executeHandler`, as decided
by the operating system: it either completes before the timeout (with combined
output and an optional exit error), or the timeout elapses first, or the
process fails to start.  Exactly one of these occurs. -/
inductive ExecBehavior where
  | completes (output : String) (exitErr : Option String)
  | timesOut
  | startFails (msg : String)
  deriving DecidableEq

/-- One entry of `Configuration.Handlers` in main.go: the command template and
the status filter. -/
structure HandlerSpec where
  Command : String := ""
  Status : String := ""
  deriving DecidableEq

/-- Embeds the `Alert` struct of main.go.  Maps are embedded as association
lists. -/
structure Alert where
  Status : String := ""
  Labels : List (String × String) := []
  Annots : List (String × String) := []
  StartsAt : String := ""
  EndsAt : String := ""
  GeneratorURL : String := ""
  Timestamp : String := ""
  Argv : List String := []
  Json : String := ""
  deriving DecidableEq

/-- Embeds the `AlertManagerEvent` struct of main.go. -/
structure AlertManagerEvent where
  Version : String := ""
  Status : String := ""
  Receiver : String := ""
  ExternalURL : String := ""
  Alerts : List Alert := []
  deriving DecidableEq

/-- Process-wide settings and external collaborators of the dispatch
pipeline: the handler configuration and debug flag (global variables in
main.go), the processing timestamp, and oracles for JSON marshalling of an
alert, Go template rendering (`template.Parse` + `Execute`, errors joined),
and external process execution under the configured timeout. -/
structure Env where
  config : List (String × HandlerSpec) := []
  debug : Bool := false
  now : String := ""
  marshal : Alert → Except String String := fun _ => Except.ok ""
  render : String → Alert → Except String String := fun c _ => Except.ok c
  exec : String → List String → ExecBehavior := fun _ _ => ExecBehavior.timesOut

/-- Embeds `strings.Fields` (split around runs of `unicode.IsSpace`),
accumulator-style. -/
def goFieldsAux : List Char → List Char → List String
  | [], acc => if acc.isEmpty then [] else [String.mk acc.reverse]
  | c :: cs, acc =>
    if isSpace c then
      if acc.isEmpty then goFieldsAux cs []
      else String.mk acc.reverse :: goFieldsAux cs []
    else goFieldsAux cs (c :: acc)

/-- Embeds `strings.Fields` from the Go standard library. -/
def goFields (s : String) : List String := goFieldsAux s.data []

/-- Embeds `formatHandler` (main.go): set `Argv` to the handler arguments,
render the command template (via the `render` oracle), tokenize the rendered
string, and return the first token and the rest.  The unguarded `fields[0]`
access crashes when `Tokenize` returns an empty token list. -/
def formatHandler (render : String → Alert → Except String String)
    (handler : List String) (command : String) (a : Alert) :
    GoPartial (Except String (String × List String)) :=
  match render command { a with Argv := handler.drop 1 } with
  | Except.error e => GoPartial.ok (Except.error e)
  | Except.ok buf =>
    match Tokenize buf with
    | Except.error e => GoPartial.ok (Except.error e)
    | Except.ok [] => GoPartial.crash
    | Except.ok (f :: rest) => GoPartial.ok (Except.ok (f, rest))

/-- The error message produced by `executeHandler` when the timeout elapses
before the process completes (main.go). -/
def timeoutMsg : String := "Command execution timed out and was killed."

/-- Embeds `executeHandler` (main.go): in debug mode nothing is executed and
`(nil, nil)` is returned; otherwise the process is started and its completion
races the timeout.  On timeout the process is killed, the captured output is
discarded (`out = nil`) and the timeout error is returned; on completion the
combined output and the exit error (if any) are returned. -/
def executeHandler (debug : Bool) (exec : String → List String → ExecBehavior)
    (exe : String) (args : List String) : Option String × Option GoError :=
  if debug then (none, none)
  else
    match exec exe args with
    | ExecBehavior.startFails m => (none, some (GoError.errorf m))
    | ExecBehavior.completes out exitErr => (some out, exitErr.map GoError.errorf)
    | ExecBehavior.timesOut => (none, some (GoError.errorf timeoutMsg))

/-- Embeds the defaulting of an empty `Status` filter to `"firing"` in
`parseHandler` (main.go). -/
def effectiveStatus (s : String) : String := if s = "" then "firing" else s

/-- The tail of `parseHandler` after lookup and status filtering succeeded:
render and tokenize the command, refuse an empty script, then execute. -/
def resolvedPipeline (env : Env) (handler : List String) (spec : HandlerSpec)
    (alert : Alert) : GoPartial (Option String × Option GoError) :=
  match formatHandler env.render handler spec.Command alert with
  | GoPartial.crash => GoPartial.crash
  | GoPartial.ok (Except.error e) =>
    GoPartial.ok (none, some (GoError.errorf ("Could not parse handler arguments: " ++ e)))
  | GoPartial.ok (Except.ok (script, args)) =>
    if script = "" then
      GoPartial.ok (none, some (GoError.errorf "Script is empty, not running."))
    else GoPartial.ok (executeHandler env.debug env.exec script args)

/-- Embeds `parseHandler` (main.go): reject an empty handler token list; look
the handler name up in the configuration (`EMISSING` when absent); apply the
status filter (empty means `"firing"`, `"*"` matches anything, otherwise the
alert status must match exactly, else skip with no output and no error); then
render, tokenize and execute. -/
def parseHandler (env : Env) (handler : List String) (alert : Alert) :
    GoPartial (Option String × Option GoError) :=
  match handler with
  | [] => GoPartial.ok (none, some (GoError.errorf "Empty handler annotation found in alert."))
  | h0 :: _ =>
    match env.config.lookup h0 with
    | none => GoPartial.ok (none, some (GoError.eventError EMISSING h0))
    | some spec =>
      if effectiveStatus spec.Status ≠ "*" ∧ effectiveStatus spec.Status ≠ alert.Status then
        GoPartial.ok (none, none)
      else
        match formatHandler env.render handler spec.Command alert with
        | GoPartial.crash => GoPartial.crash
        | GoPartial.ok (Except.error e) =>
          GoPartial.ok (none, some (GoError.errorf ("Could not parse handler arguments: " ++ e)))
        | GoPartial.ok (Except.ok (script, args)) =>
          if script = "" then
            GoPartial.ok (none, some (GoError.errorf "Script is empty, not running."))
          else GoPartial.ok (executeHandler env.debug env.exec script args)

/-- Embeds the output write at the end of the invocation loop in
`handleEvent`: non-empty output is appended to the aggregated text. -/
def appendOutput (acc : String × Nat) : Option String → String × Nat
  | some o => if o.length > 0 then (acc.1 ++ o, acc.2) else acc
  | none => acc

/-- Embeds one iteration of the invocation loop in `handleEvent` (main.go):
run `parseHandler`; a `HandlerMissing` error is swallowed when the invocation
name is `default` or `all`; any other error is appended to the aggregated
text and counted; non-empty output is appended. -/
def runInvocation (env : Env) (alert : Alert) (acc : String × Nat)
    (h : List String) : GoPartial (String × Nat) :=
  match parseHandler env h alert with
  | GoPartial.crash => GoPartial.crash
  | GoPartial.ok (output, err) =>
    match err with
    | some e =>
      if isMissingErr e then
        match h with
        | [] => GoPartial.crash
        | h0 :: _ =>
          if h0 = "default" ∨ h0 = "all" then GoPartial.ok acc
          else GoPartial.ok (appendOutput (acc.1 ++ e.message ++ "\n", acc.2 + 1) output)
      else GoPartial.ok (appendOutput (acc.1 ++ e.message ++ "\n", acc.2 + 1) output)
    | none => GoPartial.ok (appendOutput acc output)

/-- Embeds the timestamp stamping at the top of the alert loop in
`handleEvent`. -/
def stampAlert (env : Env) (a : Alert) : Alert := { a with Timestamp := env.now }

/-- Embeds the `alert.Json = string(buf)` assignment in `handleEvent`. -/
def setJson (a : Alert) (j : String) : Alert := { a with Json := j }

/-- Embeds the handler token selection in `handleEvent`: the `handler`
annotation split into fields when present, otherwise `["default"]`. -/
def handlerTokens (a : Alert) : List String :=
  match a.Annots.lookup "handler" with
  | none => ["default"]
  | some v => goFields v

/-- The two-element invocation loop of `handleEvent`: the primary (or
default) handler first, then the `all` meta-handler. -/
def handleAlertInvocations (env : Env) (alert : Alert) (acc : String × Nat) :
    GoPartial (String × Nat) :=
  match runInvocation env alert acc (handlerTokens alert) with
  | GoPartial.crash => GoPartial.crash
  | GoPartial.ok acc1 => runInvocation env alert acc1 ["all"]

/-- Embeds one iteration of the alert loop in `handleEvent` (main.go): stamp
the timestamp, marshal the alert to JSON (a failure is counted and ends the
iteration), store the JSON snapshot, then run the invocation loop. -/
def handleAlert (env : Env) (acc : String × Nat) (alert0 : Alert) :
    GoPartial (String × Nat) :=
  match env.marshal (stampAlert env alert0) with
  | Except.error msg =>
    GoPartial.ok (acc.1 ++ "Error marshalling JSON: " ++ msg ++ "\n", acc.2 + 1)
  | Except.ok buf =>
    handleAlertInvocations env (setJson (stampAlert env alert0) buf) acc

/-- The alert loop of `handleEvent`, threading the aggregated text and error
count. -/
def handleAlerts (env : Env) : String × Nat → List Alert → GoPartial (String × Nat)
  | acc, [] => GoPartial.ok acc
  | acc, a :: rest =>
    match handleAlert env acc a with
    | GoPartial.crash => GoPartial.crash
    | GoPartial.ok acc1 => handleAlerts env acc1 rest

/-- Embeds `handleEvent` (main.go): process every alert, and return the
aggregated text together with the overall error (`some` exactly when the
error count is positive). -/
def handleEvent (env : Env) (e : AlertManagerEvent) : GoPartial (String × Option String) :=
  match handleAlerts env ("", 0) e.Alerts with
  | GoPartial.crash => GoPartial.crash
  | GoPartial.ok (retText, errors) =>
    GoPartial.ok (retText, if errors > 0 then some "Error(s) executing event(s)" else none)

/-- The 4KiB buffer size constant `JsonBody` of main.go. -/
def JsonBody : Nat := 4096

/-- Embeds `amWebHook` of the current main.go: non-POST requests are
rejected; the body is read in full by the read loop (no size ceiling); the
JSON decode (`unmarshal` oracle) is attempted on the whole body; on success
the event is dispatched and the status code reflects the overall outcome.
The body is modelled as the byte/character sequence delivered by the client. -/
def amWebHook (env : Env) (unmarshal : List Char → Except String AlertManagerEvent)
    (method : String) (body : List Char) : GoPartial (Nat × String) :=
  if method ≠ "POST" then GoPartial.ok (400, "Bad request method.\n")
  else
    match unmarshal body with
    | Except.error e => GoPartial.ok (400, "Error parsing JSON: " ++ e ++ "\n")
    | Except.ok event =>
      match handleEvent env event with
      | GoPartial.crash => GoPartial.crash
      | GoPartial.ok (output, errOpt) =>
        GoPartial.ok (if errOpt.isSome then 400 else 200, output)

/-- Embeds `amWebHook` of the earlier revision in src/main.go, which performs
a single `r.Body.Read` into a `JsonBody`-sized buffer and rejects a body that
fills the buffer before any JSON parsing.  The single read is modelled as
delivering the first `min JsonBody (length body)` characters; the dispatch of
a parsed event is abstracted as an oracle returning the error text, if any. -/
def amWebHookLegacy (unmarshal : List Char → Except String AlertManagerEvent)
    (dispatch : AlertManagerEvent → Option String) (method : String)
    (body : List Char) : Nat × String :=
  if method ≠ "POST" then (400, "Bad request method.\n")
  else
    if (body.take JsonBody).length = JsonBody then
      (400, "Message body larger than 4KiB.\n")
    else
      match unmarshal (body.take JsonBody) with
      | Except.error e => (400, "Error parsing JSON: " ++ e ++ "\n")
      | Except.ok event =>
        match dispatch event with
        | some errText => (400, "Error(s) executing event(s):\n" ++ errText ++ "\n")
        | none => (200, "")

/-- Concrete environment for exercising the status filter: one handler whose
filter is `resolved`. -/
def envResolvedFilter : Env :=
  { config := [("h", { Command := "c", Status := "resolved" })] }

/-- Concrete environment with one handler whose filter is `*`. -/
def envStarFilter : Env :=
  { config := [("h", { Command := "c", Status := "*" })] }

/-- Concrete environment whose command always times out. -/
def envTimeoutRun : Env :=
  { config := [("h", { Command := "run now", Status := "*" })],
    render := fun c _ => Except.ok c,
    exec := fun _ _ => ExecBehavior.timesOut }

/-- Concrete debug-mode environment with one resolvable handler whose filter
is left empty. -/
def envDebugRun : Env :=
  { config := [("h", { Command := "run now", Status := "" })],
    debug := true,
    render := fun c _ => Except.ok c }

example : Tokenize "this is a test" = Except.ok ["this", "is", "a", "test"] := by rfl
example : Tokenize "this \"is a\"   test" = Except.ok ["this", "is a", "test"] := by rfl
example : Tokenize "this \\\"is a\\\"   test" =
    Except.ok ["this", "\"is", "a\"", "test"] := by rfl
example : Tokenize "this is a \"test" = Except.error "Missing closing quote" := by rfl
example : Tokenize "this is\\\ta test" = Except.ok ["this", "is\ta", "test"] := by rfl
example : Tokenize "this \\is a test" = Except.ok ["this", "\\is", "a", "test"] := by rfl
example : Tokenize (String.mk [squote, squote]) = Except.ok [] := by rfl
example : Tokenize (String.mk ['a', squote, squote, 'b']) = Except.ok ["a", "b"] := by rfl
example : Tokenize "ab\\" = Except.ok ["ab\\"] := by rfl

example : goFields "  restart-prom  host1 " = ["restart-prom", "host1"] := by rfl
example : goFields "   " = [] := by rfl

/-- A string built from a non-empty character list is not the empty string. -/
lemma string_mk_ne_empty (l : List Char) (hl : l ≠ []) : String.mk l ≠ "" := by
  intro h
  exact hl (congrArg String.data h)

/-- The pending buffer is always empty after `chunk`. -/
lemma chunk_token (st : TokState) : (chunk st).token = [] := by
  unfold chunk
  split_ifs with h
  · rfl
  · simp only [not_lt, Nat.le_zero, List.length_eq_zero] at h
    exact h

/-- The result of `chunk`: the pending token is appended exactly when it is
non-empty. -/
lemma chunk_result (st : TokState) :
    (chunk st).result =
      st.result ++ (if st.token = [] then [] else [String.mk st.token]) := by
  by_cases h : st.token = []
  · simp [chunk, h]
  · simp [chunk, List.length_pos.mpr h, h]

/-- `chunk` only ever appends non-empty tokens to the result. -/
lemma chunk_result_nonempty (st : TokState)
    (h : ∀ t ∈ st.result, t ≠ "") : ∀ t ∈ (chunk st).result, t ≠ "" := by
  intro t ht
  rw [chunk_result] at ht
  rcases List.mem_append.mp ht with h1 | h1
  · exact h t h1
  · rcases Decidable.em (st.token = []) with he | he
    · simp [he] at h1
    · simp only [if_neg he, List.mem_singleton] at h1
      subst h1
      exact string_mk_ne_empty st.token he

/-- One scanner step only ever appends non-empty tokens to the result. -/
lemma step_result_nonempty (st : TokState) (c : Char)
    (h : ∀ t ∈ st.result, t ≠ "") : ∀ t ∈ (step st c).result, t ≠ "" := by
  obtain ⟨res, tok, state, q⟩ := st
  rcases state with _ | _ | n
  · simp only [step]
    split_ifs with h1 h2 h3
    · exact chunk_result_nonempty _ h
    · exact h
    · exact h
    · exact h
  · simp only [step]
    split_ifs <;> exact h
  · simp only [step]
    split_ifs with h1 h2
    · exact h
    · exact chunk_result_nonempty _ h
    · exact h

/-- The scanner loop only ever appends non-empty tokens to the result. -/
lemma foldl_result_nonempty : ∀ (l : List Char) (st : TokState),
    (∀ t ∈ st.result, t ≠ "") → ∀ t ∈ (List.foldl step st l).result, t ≠ ""
  | [], _, h => h
  | c :: cs, st, h =>
    foldl_result_nonempty cs (step st c) (step_result_nonempty st c h)

/-- End-of-string handling preserves non-emptiness of all returned tokens. -/
lemma finish_ok_nonempty (st : TokState) (toks : List String)
    (hres : ∀ t ∈ st.result, t ≠ "") (h : finish st = Except.ok toks) :
    ∀ t ∈ toks, t ≠ "" := by
  obtain ⟨res, tok, state, q⟩ := st
  rcases state with _ | _ | n
  · unfold finish at h
    injection h with h
    subst h
    exact chunk_result_nonempty _ hres
  · unfold finish at h
    injection h with h
    subst h
    exact chunk_result_nonempty _ hres
  · rcases n with _ | m
    · exact absurd h (by unfold finish; simp)
    · unfold finish at h
      injection h with h
      subst h
      exact chunk_result_nonempty _ hres

/-- Every token returned by `Tokenize` is a non-empty string: `chunk` never
emits an empty buffer. -/
lemma tokenize_tokens_nonempty (s : String) (toks : List String)
    (h : Tokenize s = Except.ok toks) : ∀ t ∈ toks, t ≠ "" := by
  unfold Tokenize at h
  exact finish_ok_nonempty _ toks
    (foldl_result_nonempty s.data initState (by simp [initState])) h

/-- A whitespace character leaves the initial scanner state unchanged. -/
lemma step_initState_space (c : Char) (hc : isSpace c = true) :
    step initState c = initState := by
  simp [step, initState, chunk, hc]

/-- Scanning whitespace only never leaves the initial state. -/
lemma foldl_space (l : List Char) (hl : ∀ c ∈ l, isSpace c = true) :
    List.foldl step initState l = initState := by
  induction l with
  | nil => rfl
  | cons c cs ih =>
    rw [List.foldl_cons, step_initState_space c (hl c (by simp))]
    exact ih (fun d hd => hl d (by simp [hd]))

/-- Tokenizing a whitespace-only (or empty) string succeeds with no tokens. -/
lemma tokenize_whitespace (s : String) (hs : ∀ c ∈ s.data, isSpace c = true) :
    Tokenize s = Except.ok [] := by
  unfold Tokenize
  rw [foldl_space s.data hs]
  rfl

/-- A successful `formatHandler` never returns an empty script: the script is
the head of the token list returned by `Tokenize`, and those tokens are all
non-empty. -/
lemma formatHandler_ok_script_ne
    (render : String → Alert → Except String String) (handler : List String)
    (cmd : String) (a : Alert) (script : String) (args : List String)
    (h : formatHandler render handler cmd a = GoPartial.ok (Except.ok (script, args))) :
    script ≠ "" := by
  unfold formatHandler at h
  split at h
  · simp at h
  · rename_i buf hr
    split at h
    · simp at h
    · simp at h
    · rename_i f rest ht
      simp only [GoPartial.ok.injEq, Except.ok.injEq, Prod.mk.injEq] at h
      rw [← h.1]
      exact tokenize_tokens_nonempty buf (f :: rest) ht f (by simp)

/-- Claim C7: a backslash-escaped quote character read while no quote is
active is appended to the current token as a single literal quote character
and does not open a quoted region (the scanner returns to the normal state
with no active quote); in particular tokenizing the string
`this \\"is a\\"   test` yields exactly the four tokens `this`, `"is`,
`a"`, `test`. -/
theorem claim_C7 :
    (∀ st : TokState, st.state = 0 → st.quote = '\x00' →
      step (step st '\\') '"' = { st with token := st.token ++ ['"'] }) ∧
    Tokenize "this \\\"is a\\\"   test" =
      Except.ok ["this", "\"is", "a\"", "test"] := by
  constructor
  · intro st h0 hq
    obtain ⟨res, tok, state, q⟩ := st
    have h0' : state = 0 := h0
    have hq' : q = '\x00' := hq
    subst h0'
    subst hq'
    have e1 : step { result := res, token := tok, state := 0, quote := '\x00' } '\\' =
        { result := res, token := tok, state := 1, quote := '\x00' } := rfl
    have e2 : step { result := res, token := tok, state := 1, quote := '\x00' } '"' =
        { result := res, token := tok ++ ['"'], state := 0, quote := '\x00' } := rfl
    rw [e1, e2]
  · rfl

/-- Witness for C7 at the initial scanner state. -/
theorem claim_C7_witness :
    step (step initState '\\') '"' =
      { initState with token := initState.token ++ ['"'] } :=
  claim_C7.1 initState rfl rfl

/-- Claim C8: at end of input, a scanner still in the escape state appends a
single literal backslash to the final token and emits it; a scanner still in
the quoted state makes `Tokenize` fail with the missing-closing-quote error
and return no tokens; otherwise any pending non-empty token is flushed as the
last token. -/
theorem claim_C8 (s : String) :
    ((List.foldl step initState s.data).state = 1 →
      Tokenize s = Except.ok ((List.foldl step initState s.data).result ++
        [String.mk ((List.foldl step initState s.data).token ++ ['\\'])])) ∧
    ((List.foldl step initState s.data).state = 2 →
      Tokenize s = Except.error "Missing closing quote") ∧
    ((List.foldl step initState s.data).state = 0 →
      Tokenize s = Except.ok ((List.foldl step initState s.data).result ++
        (if (List.foldl step initState s.data).token = [] then []
         else [String.mk (List.foldl step initState s.data).token]))) := by
  unfold Tokenize
  generalize List.foldl step initState s.data = st
  obtain ⟨res, tok, state, q⟩ := st
  refine ⟨?_, ?_, ?_⟩ <;> intro h
  · have h' : state = 1 := h
    subst h'
    show finish _ = _
    unfold finish
    rw [chunk_result]
    simp
  · have h' : state = 2 := h
    subst h'
    rfl
  · have h' : state = 0 := h
    subst h'
    rw [show finish { result := res, token := tok, state := 0, quote := q } =
        Except.ok (chunk { result := res, token := tok, state := 0, quote := q }).result
        from rfl, chunk_result]

/-- Witness for C8: a trailing backslash case and an unterminated quote
case. -/
theorem claim_C8_witness :
    Tokenize "ab\\" = Except.ok ["ab\\"] ∧
    Tokenize "this is a \"test" = Except.error "Missing closing quote" := by
  constructor
  · exact ((claim_C8 "ab\\").1 (by rfl)).trans (by rfl)
  · exact (claim_C8 "this is a \"test").2.1 (by rfl)

/-- Counterexample for claim C9: tokenizing an empty quoted pair (two
adjacent single quotes) yields zero tokens, not one empty-string token,
because `chunk` only emits non-empty buffers. -/
theorem claim_C9_cex :
    Tokenize (String.mk [squote, squote]) = Except.ok [] ∧
    (Except.ok ([] : List String) : Except String (List String)) ≠
      Except.ok [""] := by
  refine ⟨rfl, ?_⟩
  intro h
  simp at h

/-- Claim C9 as amended: in the quoted state the matching quote character
closes the token immediately — the pending buffer is flushed (emitted exactly
when non-empty, so an empty quoted pair contributes no token), the buffer is
cleared and the scanner returns to the normal state with no active quote —
so characters after a closing quote always start a new token; in particular
`a''b` tokenizes to `a`, `b`, never `ab`. -/
theorem claim_C9 :
    (∀ (st : TokState) (c : Char), st.state = 2 → c = st.quote → c ≠ '\\' →
      step st c = { chunk st with state := 0, quote := '\x00' } ∧
      (chunk st).token = [] ∧
      (chunk st).result =
        st.result ++ (if st.token = [] then [] else [String.mk st.token])) ∧
    Tokenize (String.mk ['a', squote, squote, 'b']) = Except.ok ["a", "b"] := by
  constructor
  · intro st c h2 hq hbs
    refine ⟨?_, chunk_token st, chunk_result st⟩
    obtain ⟨res, tok, state, q⟩ := st
    have h2' : state = 2 := h2
    subst h2'
    have hq' : c = q := hq
    subst hq'
    show (if c = '\\' then _ else if c = c then _ else _) = _
    rw [if_neg hbs, if_pos rfl]
  · rfl

/-- Witness for C9 at a concrete quoted-state configuration. -/
theorem claim_C9_witness :
    step { result := ["x"], token := ['t'], state := 2, quote := squote } squote =
      { chunk { result := ["x"], token := ['t'], state := 2, quote := squote } with
        state := 0, quote := '\x00' } ∧
    (chunk { result := ["x"], token := ['t'], state := 2, quote := squote }).token = [] ∧
    (chunk { result := ["x"], token := ['t'], state := 2, quote := squote }).result =
      ["x"] ++ (if (['t'] : List Char) = [] then [] else [String.mk ['t']]) :=
  claim_C9.1 { result := ["x"], token := ['t'], state := 2, quote := squote }
    squote rfl rfl (by decide)

/-- Claim C10: a rendered command string containing no tokens (empty or
whitespace-only) tokenizes to the empty token list with no error, upon which
`formatHandler` hits its unguarded `fields[0]` access and crashes (a runtime
panic on an empty slice); moreover every successful `formatHandler` returns a
non-empty script, so the `Script is empty, not running.` branch guarded by
`script == ""` in `parseHandler` is unreachable. -/
theorem claim_C10 :
    (∀ r : String, (∀ c ∈ r.data, isSpace c = true) → Tokenize r = Except.ok []) ∧
    (∀ (render : String → Alert → Except String String) (h0 : String)
       (rest : List String) (cmd : String) (alert : Alert) (r : String),
      render cmd { alert with Argv := rest } = Except.ok r →
      (∀ c ∈ r.data, isSpace c = true) →
      formatHandler render (h0 :: rest) cmd alert = GoPartial.crash) ∧
    (∀ (render : String → Alert → Except String String) (handler : List String)
       (cmd : String) (alert : Alert) (script : String) (args : List String),
      formatHandler render handler cmd alert = GoPartial.ok (Except.ok (script, args)) →
      script ≠ "") := by
  refine ⟨tokenize_whitespace, ?_, formatHandler_ok_script_ne⟩
  intro render h0 rest cmd alert r hrender hws
  have hrender' : render cmd { alert with Argv := (h0 :: rest).drop 1 } = Except.ok r :=
    hrender
  have hred : formatHandler render (h0 :: rest) cmd alert =
      (match Tokenize r with
       | Except.error e => GoPartial.ok (Except.error e)
       | Except.ok [] => GoPartial.crash
       | Except.ok (f :: rest2) => GoPartial.ok (Except.ok (f, rest2))) := by
    unfold formatHandler
    rw [hrender']
  rw [hred, tokenize_whitespace r hws]

/-- Witness for C10: a whitespace-only rendered command, the crash it causes
in `formatHandler`, and a successful `formatHandler` returning a non-empty
script. -/
theorem claim_C10_witness :
    Tokenize " \t " = Except.ok [] ∧
    formatHandler (fun _ _ => Except.ok "   ") ["h"] "c" {} = GoPartial.crash ∧
    ("run" : String) ≠ "" := by
  refine ⟨claim_C10.1 " \t " (by decide),
    claim_C10.2.1 (fun _ _ => Except.ok "   ") "h" [] "c" {} "   " rfl (by decide),
    claim_C10.2.2 (fun _ _ => Except.ok "run now") ["h"] "c" {} "run" ["now"] (by rfl)⟩

/-- A missing handler name resolves to the `EMISSING` event error, which the
invocation loop swallows exactly for the two meta-handler names and otherwise
records as a counted failure. -/
lemma runInvocation_missing (env : Env) (alert : Alert) (acc : String × Nat)
    (h0 : String) (rest : List String) (hmiss : env.config.lookup h0 = none) :
    runInvocation env alert acc (h0 :: rest) =
      if h0 = "default" ∨ h0 = "all" then GoPartial.ok acc
      else GoPartial.ok
        (acc.1 ++ ("Handler " ++ h0 ++ " is not defined or missing from configration") ++
          "\n", acc.2 + 1) := by
  unfold runInvocation parseHandler
  dsimp only
  rw [hmiss]
  dsimp only
  by_cases hd : h0 = "default" ∨ h0 = "all"
  · rw [if_pos hd]
    simp [isMissingErr, EMISSING, hd]
  · rw [if_neg hd]
    simp [isMissingErr, EMISSING, hd, GoError.message, appendOutput]

/-- When the `handler` annotation is absent the invocation tokens default to
`["default"]`. -/
lemma handlerTokens_none (a : Alert) (h : a.Annots.lookup "handler" = none) :
    handlerTokens a = ["default"] := by
  unfold handlerTokens
  rw [h]

/-- In debug mode the executor performs no execution: empty output, no
error, for every execution oracle. -/
lemma executeHandler_debug (exec : String → List String → ExecBehavior)
    (exe : String) (args : List String) :
    executeHandler true exec exe args = (none, none) := rfl

/-- When the timeout elapses first, the executor discards the captured
output and returns the timeout error. -/
lemma executeHandler_timeout (exec : String → List String → ExecBehavior)
    (exe : String) (args : List String) (hx : exec exe args = ExecBehavior.timesOut) :
    executeHandler false exec exe args = (none, some (GoError.errorf timeoutMsg)) := by
  unfold executeHandler
  rw [if_neg (by simp), hx]

/-- Reduction of `parseHandler` once the lookup succeeds, the status filter
matches, and rendering plus tokenization succeed: the invocation reaches the
executor. -/
lemma parseHandler_resolved (env : Env) (h0 : String) (rest : List String)
    (spec : HandlerSpec) (alert : Alert) (script : String) (args : List String)
    (hfound : env.config.lookup h0 = some spec)
    (hstat : effectiveStatus spec.Status = "*" ∨ effectiveStatus spec.Status = alert.Status)
    (hfmt : formatHandler env.render (h0 :: rest) spec.Command alert =
      GoPartial.ok (Except.ok (script, args))) :
    parseHandler env (h0 :: rest) alert =
      GoPartial.ok (executeHandler env.debug env.exec script args) := by
  unfold parseHandler
  dsimp only
  rw [hfound]
  dsimp only
  rw [if_neg (fun hc => hstat.elim (fun h => hc.1 h) (fun h => hc.2 h)), hfmt]
  dsimp only
  rw [if_neg (formatHandler_ok_script_ne _ _ _ _ _ _ hfmt)]

/-- An invocation whose `parseHandler` returns a plain error with no output
appends the error text and counts one failure. -/
lemma runInvocation_plain_error (env : Env) (alert : Alert) (acc : String × Nat)
    (h : List String) (msg : String)
    (hph : parseHandler env h alert = GoPartial.ok (none, some (GoError.errorf msg))) :
    runInvocation env alert acc h = GoPartial.ok (acc.1 ++ msg ++ "\n", acc.2 + 1) := by
  unfold runInvocation
  rw [hph]
  simp [isMissingErr, GoError.message, appendOutput]

/-- An invocation whose `parseHandler` returns no output and no error leaves
the aggregate untouched. -/
lemma runInvocation_success_noout (env : Env) (alert : Alert) (acc : String × Nat)
    (h : List String)
    (hph : parseHandler env h alert = GoPartial.ok (none, none)) :
    runInvocation env alert acc h = GoPartial.ok acc := by
  unfold runInvocation
  rw [hph]
  rfl

/-- Claim C1: an alert with no `handler` annotation, processed against a
configuration with no `default` handler, contributes no error and no output,
and an event consisting of such an alert (with no `all` handler configured
either, so that no other invocation fails) is handled with the error count
staying zero. -/
theorem claim_C1 (env : Env) (alert : Alert) (acc : String × Nat) (j : String)
    (hann : alert.Annots.lookup "handler" = none)
    (hdef : env.config.lookup "default" = none)
    (hall : env.config.lookup "all" = none)
    (hmar : env.marshal (stampAlert env alert) = Except.ok j) :
    handleAlert env acc alert = GoPartial.ok acc ∧
    (∀ V S R U : String,
      handleEvent env { Version := V, Status := S, Receiver := R,
                        ExternalURL := U, Alerts := [alert] } =
        GoPartial.ok ("", none)) := by
  have key : ∀ acc2 : String × Nat, handleAlert env acc2 alert = GoPartial.ok acc2 := by
    intro acc2
    unfold handleAlert
    rw [hmar]
    dsimp only
    unfold handleAlertInvocations
    rw [handlerTokens_none (setJson (stampAlert env alert) j) hann,
      runInvocation_missing env (setJson (stampAlert env alert) j) acc2 "default" [] hdef,
      if_pos (Or.inl rfl)]
    dsimp only
    rw [runInvocation_missing env (setJson (stampAlert env alert) j) acc2 "all" [] hall,
      if_pos (Or.inr rfl)]
  refine ⟨key acc, ?_⟩
  intro V S R U
  have h1 : handleAlerts env ("", 0) [alert] = GoPartial.ok ("", 0) := by
    show (match handleAlert env ("", 0) alert with
      | GoPartial.crash => GoPartial.crash
      | GoPartial.ok acc1 => handleAlerts env acc1 []) = GoPartial.ok ("", 0)
    rw [key ("", 0)]
    rfl
  unfold handleEvent
  rw [h1]
  rfl

/-- Witness for C1: a concrete environment with no configured handlers and
an alert carrying no annotations. -/
theorem claim_C1_witness :
    handleAlert { marshal := fun _ => Except.ok "j" } ("", 0) { Status := "firing" } =
      GoPartial.ok ("", 0) ∧
    handleEvent { marshal := fun _ => Except.ok "j" }
      { Version := "4", Status := "firing", Receiver := "r",
        ExternalURL := "u", Alerts := [{ Status := "firing" }] } =
      GoPartial.ok ("", none) := by
  have h := claim_C1 { marshal := fun _ => Except.ok "j" } { Status := "firing" }
    ("", 0) "j" rfl rfl rfl rfl
  exact ⟨h.1, h.2 "4" "firing" "r" "u"⟩

/-- Claim C2: a `HandlerMissing` resolution failure is suppressed (no count,
no output) exactly when the invocation name is `default` or `all`; for any
other name the missing-handler text is appended and the failure count
increments. -/
theorem claim_C2 (env : Env) (alert : Alert) (acc : String × Nat) (h0 : String)
    (rest : List String) (hmiss : env.config.lookup h0 = none) :
    runInvocation env alert acc (h0 :: rest) =
      if h0 = "default" ∨ h0 = "all" then GoPartial.ok acc
      else GoPartial.ok
        (acc.1 ++ ("Handler " ++ h0 ++ " is not defined or missing from configration") ++
          "\n", acc.2 + 1) :=
  runInvocation_missing env alert acc h0 rest hmiss

/-- Witness for C2: the suppressed `default` case and the counted case of an
ordinary missing handler name. -/
theorem claim_C2_witness :
    runInvocation {} {} ("", 0) ["default"] = GoPartial.ok ("", 0) ∧
    runInvocation {} {} ("", 0) ["other"] =
      GoPartial.ok
        ("" ++ ("Handler " ++ "other" ++ " is not defined or missing from configration") ++
          "\n", 0 + 1) := by
  constructor
  · rw [claim_C2 {} {} ("", 0) "default" [] rfl, if_pos (Or.inl rfl)]
  · rw [claim_C2 {} {} ("", 0) "other" [] rfl, if_neg (by decide)]

/-- Claim C3: for a resolved handler specification, an empty status filter is
treated as `firing`; the invocation proceeds to rendering and execution
exactly when the effective filter is `*` or equals the alert status exactly,
and otherwise it is skipped with no output, no error, and no rendering or
execution (the result is independent of the render and exec oracles). -/
theorem claim_C3 (env : Env) (h0 : String) (rest : List String) (spec : HandlerSpec)
    (alert : Alert) (hfound : env.config.lookup h0 = some spec) :
    (¬ (effectiveStatus spec.Status = "*" ∨ effectiveStatus spec.Status = alert.Status) →
      ∀ (render2 : String → Alert → Except String String)
        (exec2 : String → List String → ExecBehavior),
        parseHandler { env with render := render2, exec := exec2 } (h0 :: rest) alert =
          GoPartial.ok (none, none)) ∧
    ((effectiveStatus spec.Status = "*" ∨ effectiveStatus spec.Status = alert.Status) →
      parseHandler env (h0 :: rest) alert = resolvedPipeline env (h0 :: rest) spec alert) := by
  constructor
  · intro hno render2 exec2
    unfold parseHandler
    dsimp only
    rw [hfound]
    dsimp only
    rcases not_or.mp hno with ⟨hn1, hn2⟩
    rw [if_pos ⟨hn1, hn2⟩]
  · intro hyes
    unfold parseHandler resolvedPipeline
    dsimp only
    rw [hfound]
    dsimp only
    rw [if_neg (fun hc => hyes.elim (fun h => hc.1 h) (fun h => hc.2 h))]

/-- Witness for C3: a `resolved` filter against a firing alert is skipped
independently of the oracles, and a `*` filter proceeds to the resolved
pipeline. -/
theorem claim_C3_witness :
    parseHandler
      { envResolvedFilter with render := fun c _ => Except.ok c,
                               exec := fun _ _ => ExecBehavior.timesOut }
      ["h"] { Status := "firing" } = GoPartial.ok (none, none) ∧
    parseHandler envStarFilter ["h"] { Status := "firing" } =
      resolvedPipeline envStarFilter ["h"] { Command := "c", Status := "*" }
        { Status := "firing" } := by
  constructor
  · exact (claim_C3 envResolvedFilter "h" [] { Command := "c", Status := "resolved" }
      { Status := "firing" } rfl).1
      (by decide) (fun c _ => Except.ok c) (fun _ _ => ExecBehavior.timesOut)
  · exact (claim_C3 envStarFilter "h" [] { Command := "c", Status := "*" }
      { Status := "firing" } rfl).2 (Or.inl (by decide))

/-- Claim C4: when the external process does not complete within the
timeout, the partially captured output is discarded (the executor returns no
output at all), the recorded text is the timeout message — which contains the
substring `timed out` — and the invocation counts as exactly one failure with
exactly that text appended. -/
theorem claim_C4 :
    ("timed out".data <:+: timeoutMsg.data) ∧
    (∀ (exec : String → List String → ExecBehavior) (exe : String) (args : List String),
      exec exe args = ExecBehavior.timesOut →
      executeHandler false exec exe args = (none, some (GoError.errorf timeoutMsg))) ∧
    (∀ (env : Env) (alert : Alert) (acc : String × Nat) (h0 : String)
       (rest : List String) (spec : HandlerSpec) (script : String) (args : List String),
      env.debug = false →
      env.config.lookup h0 = some spec →
      (effectiveStatus spec.Status = "*" ∨ effectiveStatus spec.Status = alert.Status) →
      formatHandler env.render (h0 :: rest) spec.Command alert =
        GoPartial.ok (Except.ok (script, args)) →
      env.exec script args = ExecBehavior.timesOut →
      runInvocation env alert acc (h0 :: rest) =
        GoPartial.ok (acc.1 ++ timeoutMsg ++ "\n", acc.2 + 1)) := by
  refine ⟨by decide, fun exec exe args hx => executeHandler_timeout exec exe args hx, ?_⟩
  intro env alert acc h0 rest spec script args hdbg hfound hstat hfmt hexec
  have hp := parseHandler_resolved env h0 rest spec alert script args hfound hstat hfmt
  rw [hdbg, executeHandler_timeout env.exec script args hexec] at hp
  exact runInvocation_plain_error env alert acc (h0 :: rest) timeoutMsg hp

/-- Witness for C4 at a concrete environment whose process always times
out. -/
theorem claim_C4_witness :
    runInvocation envTimeoutRun {} ("", 0) ["h"] =
      GoPartial.ok ("" ++ timeoutMsg ++ "\n", 0 + 1) ∧
    "timed out".data <:+: timeoutMsg.data := by
  refine ⟨claim_C4.2.2 envTimeoutRun {} ("", 0) "h" []
    { Command := "run now", Status := "*" }
    "run" ["now"] rfl rfl (Or.inl (by decide)) (by rfl) rfl, claim_C4.1⟩

/-- Claim C6: with the debug flag set the executor starts no process and
returns empty output with no error for every execution oracle, and a
well-formed resolvable invocation leaves the aggregate untouched (treated as
success). -/
theorem claim_C6 :
    (∀ (exec : String → List String → ExecBehavior) (exe : String) (args : List String),
      executeHandler true exec exe args = (none, none)) ∧
    (∀ (env : Env) (alert : Alert) (acc : String × Nat) (h0 : String)
       (rest : List String) (spec : HandlerSpec) (script : String) (args : List String),
      env.debug = true →
      env.config.lookup h0 = some spec →
      (effectiveStatus spec.Status = "*" ∨ effectiveStatus spec.Status = alert.Status) →
      formatHandler env.render (h0 :: rest) spec.Command alert =
        GoPartial.ok (Except.ok (script, args)) →
      runInvocation env alert acc (h0 :: rest) = GoPartial.ok acc) := by
  refine ⟨executeHandler_debug, ?_⟩
  intro env alert acc h0 rest spec script args hdbg hfound hstat hfmt
  have hp := parseHandler_resolved env h0 rest spec alert script args hfound hstat hfmt
  rw [hdbg, executeHandler_debug env.exec script args] at hp
  exact runInvocation_success_noout env alert acc (h0 :: rest) hp

/-- Witness for C6: a debug-mode environment with a resolvable handler whose
filter defaults to `firing`. -/
theorem claim_C6_witness :
    executeHandler true (fun _ _ => ExecBehavior.timesOut) "x" [] = (none, none) ∧
    runInvocation envDebugRun { Status := "firing" } ("", 0) ["h"] =
      GoPartial.ok ("", 0) := by
  refine ⟨claim_C6.1 _ "x" [], claim_C6.2 envDebugRun { Status := "firing" } ("", 0)
    "h" [] { Command := "run now", Status := "" } "run" ["now"] rfl rfl
    (Or.inr (by decide)) (by rfl)⟩

/-- Counterexample for claim C5: the current webhook applies no body-size
ceiling.  A POST body of exactly `JsonBody` (4096) characters — at the
ceiling — is parsed, dispatched, and answered with 200, not rejected with 400
before parsing. -/
theorem claim_C5_cex :
    JsonBody ≤ (List.replicate 4096 'a').length ∧
    amWebHook {} (fun _ => Except.ok {}) "POST" (List.replicate 4096 'a') =
      GoPartial.ok (200, "") := by
  refine ⟨by rw [List.length_replicate]; decide, rfl⟩

/-- Claim C5 as amended: only the earlier revision in src/main.go rejects a
body that fills its 4KiB buffer with 400 before JSON parsing; the current
webhook reads the whole body with no size ceiling, so a body at or beyond
4096 characters proceeds to parsing and dispatch and succeeds with 200 when
both succeed. -/
theorem claim_C5_amended :
    (∀ (unmarshal : List Char → Except String AlertManagerEvent)
       (dispatch : AlertManagerEvent → Option String) (body : List Char),
      JsonBody ≤ body.length →
      amWebHookLegacy unmarshal dispatch "POST" body =
        (400, "Message body larger than 4KiB.\n")) ∧
    (∀ (env : Env) (unmarshal : List Char → Except String AlertManagerEvent)
       (body : List Char) (ev : AlertManagerEvent) (out : String),
      JsonBody ≤ body.length →
      unmarshal body = Except.ok ev →
      handleEvent env ev = GoPartial.ok (out, none) →
      amWebHook env unmarshal "POST" body = GoPartial.ok (200, out)) := by
  constructor
  · intro um d body hlen
    unfold amWebHookLegacy
    rw [if_neg (by simp), if_pos]
    rw [List.length_take]
    exact Nat.min_eq_left hlen
  · intro env um body ev out hlen hum hdisp
    unfold amWebHook
    rw [if_neg (by simp), hum]
    dsimp only
    rw [hdisp]
    rfl

/-- Witness for the amended C5 at concrete over-ceiling bodies. -/
theorem claim_C5_witness :
    amWebHookLegacy (fun _ => Except.ok {}) (fun _ => none) "POST"
      (List.replicate 4096 'b') = (400, "Message body larger than 4KiB.\n") ∧
    amWebHook {} (fun _ => Except.ok {}) "POST" (List.replicate 4096 'b') =
      GoPartial.ok (200, "") := by
  constructor
  · exact claim_C5_amended.1 (fun _ => Except.ok {}) (fun _ => none)
      (List.replicate 4096 'b') (by rw [List.length_replicate]; decide)
  · exact claim_C5_amended.2 {} (fun _ => Except.ok {}) (List.replicate 4096 'b') {} ""
      (by rw [List.length_replicate]; decide) rfl rfl
